import Mathlib

/-!
Shallow embedding of the media-process orchestration subsystem found in
src/engine/src/api/routes.rs (modules ytbot and livestream): the
per-channel process registries, the start/stop/status control flow of
ytbot_control and livestream_control, the RTMP target resolver
extract_rtmp_stream_details, and the relay copy-task teardown.

Modelling conventions:
- channel ids are Int (Rust i32; the code only compares them for equality);
- a spawned child process is an abstract pid (Nat);
- the OS is an oracle: a function from pid to poll result (try_wait) or to
  kill behaviour (how long after the kill signal the process takes to exit);
- the registries (tokio HashMap behind an async Mutex) are association
  lists with unique keys; the exclusive lock held across a whole handler
  branch is modelled by that branch being one atomic Lean function;
- observable side effects (spawn, kill signal, registry insert/remove)
  are recorded in an event trace, in program order;
- the detached stdout/stderr logging tasks only forward log lines and
  touch neither the registry nor any process, so they are not modelled.
-/

namespace FFplayout

/-- Result of Child.try_wait as observed by a status check: the process
has exited, is still alive, or the poll itself returned an error. -/
inductive PollRes where
  | exited
  | alive
  | pollErr (msg : String)
  deriving DecidableEq, Repr

/-- Behaviour of a process under the stop path's kill call: either the
kill call itself fails (start_kill returns an error), or the process
exits n seconds after the signal — and the kill call waits through all
n of them, because tokio's async Child::kill is start_kill followed by
an unbounded wait for exit. -/
inductive KillBehavior where
  | killFails (msg : String)
  | exitsAfter (n : Nat)
  deriving DecidableEq, Repr

/-- Observable side effects of the orchestration code, in program order. -/
inductive Event where
  | spawned (pid : Nat)
  | killSent (pid : Nat)
  | removed (cid : Int)
  | inserted (cid : Int)
  deriving DecidableEq, Repr

/-- Lookup in an association list keyed by channel id (HashMap.get). -/
def lookupL {α : Type} : List (Int × α) → Int → Option α
  | [], _ => none
  | (k2, v) :: rest, k => if k2 = k then some v else lookupL rest k

/-- Removal of a key from an association list (HashMap.remove). -/
def removeL {α : Type} : List (Int × α) → Int → List (Int × α)
  | [], _ => []
  | (k2, v) :: rest, k => if k2 = k then removeL rest k else (k2, v) :: removeL rest k

/-- Number of entries stored under one key. -/
def countL {α : Type} : List (Int × α) → Int → Nat
  | [], _ => 0
  | (k2, _) :: rest, k => if k2 = k then countL rest k + 1 else countL rest k

/-- A process registry: HashMap from channel id to a registry entry
(one pid for the bot kind, a producer/consumer pid pair for the stream
kind), modelled as an association list. -/
structure RegMap (α : Type) where
  entries : List (Int × α)
  deriving DecidableEq, Repr

def RegMap.lookup {α : Type} (m : RegMap α) (k : Int) : Option α :=
  lookupL m.entries k

def RegMap.containsKey {α : Type} (m : RegMap α) (k : Int) : Bool :=
  (lookupL m.entries k).isSome

def RegMap.remove {α : Type} (m : RegMap α) (k : Int) : RegMap α :=
  ⟨removeL m.entries k⟩

def RegMap.insert {α : Type} (m : RegMap α) (k : Int) (v : α) : RegMap α :=
  ⟨(k, v) :: removeL m.entries k⟩

def RegMap.countKey {α : Type} (m : RegMap α) (k : Int) : Nat :=
  countL m.entries k

/-! Target resolver: extract_rtmp_stream_details applies the regex
colon, then one to five digits, then any run of non-whitespace, with
leftmost-match semantics, parses the digits as u16 and rebuilds the
target from the parsed integer port and the verbatim key. -/

/-- Leftmost match of the regex pattern: a colon followed by one to five
digits (greedy) and then a greedy run of non-whitespace characters.
Returns the captured digit group and the captured key group. -/
def findTarget : List Char → Option (List Char × List Char)
  | [] => none
  | c :: rest =>
    if c = ':' then
      let ds := (rest.takeWhile Char.isDigit).take 5
      if ds = [] then
        findTarget rest
      else
        some (ds, (rest.drop ds.length).takeWhile (fun d => !d.isWhitespace))
    else
      findTarget rest

/-- Numeric value of a digit string, most significant digit first. -/
def digitsValAux (acc : Nat) : List Char → Nat
  | [] => acc
  | c :: rest => digitsValAux (acc * 10 + (c.toNat - ('0').toNat)) rest

def digitsVal (ds : List Char) : Nat := digitsValAux 0 ds

/-- Rust str::parse into u16 on a non-empty all-digit string: succeeds
with the numeric value exactly when it fits in 16 bits. -/
def parsePort (ds : List Char) : Option Nat :=
  if digitsVal ds ≤ 65535 then some (digitsVal ds) else none

def noValidMsg : String := "Nenhuma porta válida encontrada"

/-- Pure core of extract_rtmp_stream_details: from the ingest
configuration string, find the first colon-port-key match, parse the
port as u16 and return the reformatted target, or the no-valid-port
error if the pattern does not match or the port does not fit. -/
def extract_rtmp_stream_details (inputParam : String) : Except String String :=
  match findTarget inputParam.toList with
  | some (ds, key) =>
    match parsePort ds with
    | some port => Except.ok ((":") ++ Nat.repr port ++ String.mk key)
    | none => Except.error noValidMsg
  | none => Except.error noValidMsg

lemma findTarget_digits_le : ∀ (l ds key : List Char),
    findTarget l = some (ds, key) → ds.length ≤ 5 := by
  intro l
  induction l with
  | nil => intro ds key h; simp [findTarget] at h
  | cons c rest ih =>
    intro ds key h
    simp only [findTarget] at h
    by_cases hc : c = ':'
    · rw [if_pos hc] at h
      by_cases hd : ((rest.takeWhile Char.isDigit).take 5) = []
      · rw [if_pos hd] at h
        exact ih ds key h
      · rw [if_neg hd] at h
        have hds : ds = (rest.takeWhile Char.isDigit).take 5 := by
          cases h
          rfl
        subst hds
        exact List.length_take_le 5 _
    · rw [if_neg hc] at h
      exact ih ds key h

/-- C5: target resolution applies the colon, one-to-five-digits,
trailing-non-whitespace pattern; on a match whose digits fit in 16 bits
it returns the target built from the parsed port and the verbatim
trailing stream key (the concrete input yields port 1935 and the key
/live/stream?key=abc exactly); it fails with the no-valid-target error
when the pattern does not match or the digits exceed a u16; and the
result is deterministic in the configuration string. -/
theorem target_resolution_spec :
    (extract_rtmp_stream_details (":1935/live/stream?key=abc")
        = Except.ok (":1935/live/stream?key=abc")
      ∧ findTarget ((":1935/live/stream?key=abc").toList)
        = some ((("1935").toList), (("/live/stream?key=abc").toList))
      ∧ digitsVal ((("1935")).toList) = 1935)
    ∧ (∀ s : String, findTarget s.toList = none →
        extract_rtmp_stream_details s = Except.error noValidMsg)
    ∧ (∀ (s : String) (ds key : List Char), findTarget s.toList = some (ds, key) →
        (digitsVal ds ≤ 65535 →
          extract_rtmp_stream_details s
            = Except.ok ((":") ++ Nat.repr (digitsVal ds) ++ String.mk key))
        ∧ (65535 < digitsVal ds →
          extract_rtmp_stream_details s = Except.error noValidMsg))
    ∧ (∀ s : String, extract_rtmp_stream_details s = extract_rtmp_stream_details s) := by
  refine ⟨⟨by rfl, by decide, by decide⟩, ?_, ?_, fun s => rfl⟩
  · intro s h
    simp only [String.toList] at h
    simp [extract_rtmp_stream_details, h]
  · intro s ds key h
    simp only [String.toList] at h
    constructor
    · intro hle
      simp [extract_rtmp_stream_details, h, parsePort, hle]
    · intro hgt
      simp [extract_rtmp_stream_details, h, parsePort, Nat.not_le.mpr hgt]

/-- Witness for C5: the failure branches of target_resolution_spec at
concrete inputs with no colon-digit pattern and with an oversized port. -/
theorem target_resolution_spec_witness :
    extract_rtmp_stream_details ("rtmp-no-port") = Except.error noValidMsg
    ∧ extract_rtmp_stream_details (":99999/key") = Except.error noValidMsg :=
  ⟨target_resolution_spec.2.1 ("rtmp-no-port") (by decide),
   (target_resolution_spec.2.2.1 (":99999/key") (("99999").toList) (("/key").toList)
      (by decide)).2 (by decide)⟩

lemma isDigit_not_whitespace (c : Char) (h : c.isDigit = true) :
    c.isWhitespace = false := by
  cases hws : c.isWhitespace
  · rfl
  · exfalso
    have hws2 : ((c = (' ') ∨ c = ('\t')) ∨ c = ('\r')) ∨ c = ('\n') := by
      simpa [Char.isWhitespace] using hws
    rcases hws2 with ((h1 | h1) | h1) | h1 <;> subst h1 <;> exact absurd h (by decide)

lemma drop_append_le {α : Type} : ∀ (l₁ l₂ : List α) (n : Nat), n ≤ l₁.length →
    (l₁ ++ l₂).drop n = l₁.drop n ++ l₂ := by
  intro l₁
  induction l₁ with
  | nil =>
    intro l₂ n h
    have hn : n = 0 := Nat.le_zero.mp h
    subst hn
    simp
  | cons a as ih =>
    intro l₂ n h
    cases n with
    | zero => simp
    | succ m =>
      simp only [List.cons_append, List.drop_succ_cons]
      exact ih l₂ m (Nat.le_of_succ_le_succ h)

lemma takeWhile_append_all {α : Type} (p : α → Bool) :
    ∀ (l₁ l₂ : List α), (∀ a ∈ l₁, p a = true) →
      (l₁ ++ l₂).takeWhile p = l₁ ++ l₂.takeWhile p := by
  intro l₁
  induction l₁ with
  | nil =>
    intro l₂ h
    simp
  | cons a as ih =>
    intro l₂ h
    have ha : p a = true := h a (List.mem_cons_self a as)
    rw [List.cons_append, List.takeWhile_cons_of_pos ha,
      ih l₂ (fun b hb => h b (List.mem_cons_of_mem a hb))]
    rfl

/-- Soundness of the regex match: any successful result comes from the
leftmost colon with a digit after it, captures the first at most five
digits of the digit run as the port group and the following run of
non-whitespace as the key group. -/
lemma findTarget_sound : ∀ (l ds key : List Char), findTarget l = some (ds, key) →
    ∃ pre rest, l = pre ++ (':') :: rest
      ∧ ds = (rest.takeWhile Char.isDigit).take 5
      ∧ ds ≠ []
      ∧ key = (rest.drop ds.length).takeWhile (fun d => !d.isWhitespace) := by
  intro l
  induction l with
  | nil => intro ds key h; simp [findTarget] at h
  | cons c rest ih =>
    intro ds key h
    simp only [findTarget] at h
    by_cases hc : c = ':'
    · rw [if_pos hc] at h
      by_cases hd : ((rest.takeWhile Char.isDigit).take 5) = []
      · rw [if_pos hd] at h
        obtain ⟨pre, rest2, hl2, hds, hne, hkey⟩ := ih ds key h
        exact ⟨c :: pre, rest2, by rw [hl2]; rfl, hds, hne, hkey⟩
      · rw [if_neg hd] at h
        cases h
        exact ⟨[], rest, by rw [hc]; rfl, rfl, hd, rfl⟩
    · rw [if_neg hc] at h
      obtain ⟨pre, rest2, hl2, hds, hne, hkey⟩ := ih ds key h
      exact ⟨c :: pre, rest2, by rw [hl2]; rfl, hds, hne, hkey⟩

/-- C10: the resolver rebuilds the target from the parsed integer port
rather than echoing the captured digit characters: for every input whose
captured port group carries a leading zero, the zero does not change the
parsed value and the emitted target is built from the decimal form of
that value (concretely, :01935/x yields :1935/x); any two inputs whose
captured digits parse to the same value and share a key resolve to the
same target; and for every input, the port group is the first at most
five digits of the digit run after the colon, so when the run is longer
than five the remaining digits become the leading characters of the
captured stream key (concretely, :123456 yields port 12345 and key 6). -/
theorem target_port_canonicalization :
    (∀ (s : String) (ds key : List Char),
        findTarget s.toList = some ((('0') :: ds), key) →
          digitsVal (('0') :: ds) = digitsVal ds
          ∧ (digitsVal ds ≤ 65535 →
              extract_rtmp_stream_details s
                = Except.ok ((":") ++ Nat.repr (digitsVal ds) ++ String.mk key)))
    ∧ (∀ (s1 s2 : String) (ds1 ds2 key : List Char),
        findTarget s1.toList = some (ds1, key) →
        findTarget s2.toList = some (ds2, key) →
        digitsVal ds1 = digitsVal ds2 →
          extract_rtmp_stream_details s1 = extract_rtmp_stream_details s2)
    ∧ extract_rtmp_stream_details (":01935/x") = Except.ok (":1935/x")
    ∧ (∀ (l ds key : List Char), findTarget l = some (ds, key) →
        ∃ pre rest, l = pre ++ (':') :: rest
          ∧ ds = (rest.takeWhile Char.isDigit).take 5
          ∧ (5 < (rest.takeWhile Char.isDigit).length →
              ds.length = 5
              ∧ ∃ tailKey, key = (rest.takeWhile Char.isDigit).drop 5 ++ tailKey))
    ∧ (findTarget ((":123456").toList) = some ((("12345").toList), (("6").toList))
      ∧ digitsVal ((("12345")).toList) = 12345
      ∧ extract_rtmp_stream_details (":123456") = Except.ok (":123456")) := by
  refine ⟨?_, ?_, by rfl, ?_, by decide, by decide, by rfl⟩
  · intro s ds key h
    refine ⟨rfl, fun hle => ?_⟩
    simp only [String.toList] at h
    have hv : digitsVal (('0') :: ds) = digitsVal ds := rfl
    simp [extract_rtmp_stream_details, h, parsePort, hv, hle]
  · intro s1 s2 ds1 ds2 key h1 h2 hv
    simp only [String.toList] at h1 h2
    by_cases hc : digitsVal ds2 ≤ 65535 <;>
      simp [extract_rtmp_stream_details, h1, h2, parsePort, hv, hc]
  · intro l ds key h
    obtain ⟨pre, rest, hl2, hds, hne, hkey⟩ := findTarget_sound l ds key h
    refine ⟨pre, rest, hl2, hds, ?_⟩
    intro hlen
    have hdlen : ds.length = 5 := by
      rw [hds, List.length_take]
      exact Nat.min_eq_left (Nat.le_of_lt hlen)
    have hall : ∀ a ∈ (rest.takeWhile Char.isDigit).drop 5,
        (fun d : Char => !d.isWhitespace) a = true := by
      intro a ha
      have h1 : a ∈ rest.takeWhile Char.isDigit := List.drop_subset 5 _ ha
      have h2 : Char.isDigit a = true := List.mem_takeWhile_imp h1
      simp [isDigit_not_whitespace a h2]
    have hdrop : rest.drop 5
        = (rest.takeWhile Char.isDigit).drop 5 ++ rest.dropWhile Char.isDigit := by
      conv_lhs => rw [← List.takeWhile_append_dropWhile Char.isDigit rest]
      exact drop_append_le _ _ 5 (Nat.le_of_lt hlen)
    refine ⟨hdlen,
      (rest.dropWhile Char.isDigit).takeWhile (fun d => !d.isWhitespace), ?_⟩
    rw [hkey, hdlen, hdrop]
    exact takeWhile_append_all (fun d : Char => !d.isWhitespace) _ _ hall

/-- Witness for C10: the universal parts applied at the concrete
leading-zero inputs — the zero-padded and plain forms of port 1935
resolve identically, and the padded form emits the decimal of the
parsed value. -/
theorem target_port_canonicalization_witness :
    extract_rtmp_stream_details (":01935/x") = extract_rtmp_stream_details (":1935/x")
    ∧ extract_rtmp_stream_details (":01935/x")
        = Except.ok ((":") ++ Nat.repr (digitsVal (("1935").toList))
            ++ String.mk (("/x").toList)) :=
  ⟨target_port_canonicalization.2.1 (":01935/x") (":1935/x") (("01935").toList)
      (("1935").toList) (("/x").toList) (by decide) (by decide) (by decide),
   (target_port_canonicalization.1 (":01935/x") (("1935").toList) (("/x").toList)
      (by decide)).2 (by decide)⟩

/-! Registry lemmas. -/

lemma lookupL_removeL {α : Type} (l : List (Int × α)) (k k2 : Int) :
    lookupL (removeL l k) k2 = if k2 = k then none else lookupL l k2 := by
  induction l with
  | nil => simp [lookupL, removeL]
  | cons a rest ih =>
    obtain ⟨ka, va⟩ := a
    by_cases hak : ka = k
    · subst hak
      by_cases h2 : k2 = ka
      · subst h2; simp [removeL, lookupL, ih]
      · simp [removeL, lookupL, ih, h2, Ne.symm h2]
    · by_cases h2 : ka = k2
      · subst h2
        simp [removeL, lookupL, hak, ih]
      · simp [removeL, lookupL, hak, h2, ih]

lemma countL_removeL {α : Type} (l : List (Int × α)) (k : Int) :
    countL (removeL l k) k = 0 := by
  induction l with
  | nil => simp [countL, removeL]
  | cons a rest ih =>
    obtain ⟨ka, va⟩ := a
    by_cases hak : ka = k
    · simp [removeL, hak, ih]
    · simp [removeL, countL, hak, ih]

lemma RegMap.lookup_remove {α : Type} (m : RegMap α) (k k2 : Int) :
    (m.remove k).lookup k2 = if k2 = k then none else m.lookup k2 := by
  simp [RegMap.lookup, RegMap.remove, lookupL_removeL]

lemma RegMap.lookup_insert {α : Type} (m : RegMap α) (k : Int) (v : α) (k2 : Int) :
    (m.insert k v).lookup k2 = if k2 = k then some v else m.lookup k2 := by
  by_cases h : k2 = k
  · subst h; simp [RegMap.lookup, RegMap.insert, lookupL]
  · simp only [RegMap.lookup, RegMap.insert, lookupL]
    have : ¬ (k = k2) := fun hh => h hh.symm
    rw [if_neg this, if_neg h]
    have := lookupL_removeL m.entries k k2
    rw [if_neg h] at this
    exact this

lemma RegMap.containsKey_insert_self {α : Type} (m : RegMap α) (k : Int) (v : α) :
    (m.insert k v).containsKey k = true := by
  simp [RegMap.containsKey, RegMap.insert, lookupL]

lemma RegMap.containsKey_remove_self {α : Type} (m : RegMap α) (k : Int) :
    (m.remove k).containsKey k = false := by
  have := lookupL_removeL m.entries k k
  simp only [if_pos rfl] at this
  simp [RegMap.containsKey, RegMap.remove, this]

lemma RegMap.countKey_insert_self {α : Type} (m : RegMap α) (k : Int) (v : α) :
    (m.insert k v).countKey k = 1 := by
  simp [RegMap.countKey, RegMap.insert, countL, countL_removeL]

lemma RegMap.containsKey_eq_false_iff {α : Type} (m : RegMap α) (k : Int) :
    m.containsKey k = false ↔ m.lookup k = none := by
  cases h : lookupL m.entries k <;> simp [RegMap.containsKey, RegMap.lookup, h]

/-! Process handle termination: the stop paths of both kinds define the
local helper kill_and_wait_with_timeout, which calls Child::kill and
then wraps a second wait in a 5 second timeout. Under tokio semantics
Child::kill is start_kill followed by an unbounded wait for exit, so
the kill call itself blocks for as long as the process takes to die and
already reaps the child; the timeout-wrapped re-wait then observes the
cached exit status immediately, and both the wait-error arm and the
timeout arm (the Timeout ao encerrar o processo message) of the match
are unreachable. -/

/-- Bound passed to the timeout wrapper around the re-wait
(Duration::from_secs 5); since the kill call has already reaped the
child, this timeout can never elapse. -/
def stopTimeoutSecs : Nat := 5

/-- Embedding of kill_and_wait_with_timeout: the kill (start_kill plus
unbounded wait) either fails, or succeeds after waiting the full exit
delay of the process; the re-wait under the 5 second timeout then
returns the cached status at once, so the result is success whenever
the kill succeeded, whatever the delay. The second component is the
number of seconds actually waited. -/
def killAndWaitWithTimeout (b : KillBehavior) : Except String Unit × Nat :=
  match b with
  | .killFails m => (Except.error m, 0)
  | .exitsAfter n => (Except.ok (), n)

/-- Outcome of one handler branch: the structured result, the response
body string, the registry afterwards, and the trace of side effects. -/
structure Outcome (ρ : Type) (α : Type) where
  res : ρ
  body : String
  reg : RegMap α
  events : List Event
  deriving DecidableEq, Repr

/-! The ytbot module: single-process registry YTBOT_PROCESSES. -/

/-- Environment a ytbot start attempt runs against: the executable
lookup result, the channel ingest configuration read by the RTMP
extraction, the spawn result, and whether the piped stdout and stderr
handles can be taken. -/
structure BotEnv where
  exePath : Option String
  inputParam : String
  spawnPid : Option Nat
  stdoutOk : Bool
  stderrOk : Bool
  deriving DecidableEq, Repr

inductive BotStartRes where
  | alreadyRunning
  | exeNotFound
  | rtmpError
  | spawnFailed
  | stdoutFailed
  | stderrFailed
  | started
  deriving DecidableEq, Repr

/-- Start branch of ytbot_control: under the registry lock, check for an
existing entry, locate the executable, extract the RTMP details, spawn,
take stdout and stderr (killing the child if either take fails), and
finally insert the child under the channel id. -/
def ytbotStart (reg : RegMap Nat) (cid : Int) (name : String) (env : BotEnv) :
    Outcome BotStartRes Nat :=
  if reg.containsKey cid then
    ⟨.alreadyRunning, "O ytbot já está em execução para o canal " ++ name, reg, []⟩
  else
    match env.exePath with
    | none => ⟨.exeNotFound, "Executável do ytbot não encontrado", reg, []⟩
    | some _ =>
      match extract_rtmp_stream_details env.inputParam with
      | Except.error _ =>
        ⟨.rtmpError, "Erro ao extrair detalhes RTMP para o canal " ++ name, reg, []⟩
      | Except.ok _ =>
        match env.spawnPid with
        | none => ⟨.spawnFailed, "Erro ao iniciar o ytbot para o canal " ++ name, reg, []⟩
        | some pid =>
          if env.stdoutOk = false then
            ⟨.stdoutFailed, "Falha ao iniciar o ytbot para o canal " ++ name, reg,
              [.spawned pid, .killSent pid]⟩
          else if env.stderrOk = false then
            ⟨.stderrFailed, "Falha ao iniciar o ytbot para o canal " ++ name, reg,
              [.spawned pid, .killSent pid]⟩
          else
            ⟨.started, "ytbot iniciado com sucesso para o canal " ++ name,
              reg.insert cid pid, [.spawned pid, .inserted cid]⟩

/-- Embedding of is_ytbot_active: remove the entry, poll the process
with try_wait, re-insert the same entry only when it is still alive. -/
def is_ytbot_active (reg : RegMap Nat) (cid : Int) (world : Nat → PollRes) :
    Except String Bool × RegMap Nat :=
  match reg.lookup cid with
  | some pid =>
    match world pid with
    | .exited => (Except.ok false, reg.remove cid)
    | .alive => (Except.ok true, (reg.remove cid).insert cid pid)
    | .pollErr e => (Except.error e, reg.remove cid)
  | none => (Except.ok false, reg)

inductive BotStopRes where
  | notRunning
  | stopped
  | stopError
  deriving DecidableEq, Repr

/-- Stop branch of ytbot_control: remove the entry first, then kill and
wait with the bounded timeout; a kill or timeout error is reported but
the entry stays removed. -/
def ytbotStop (reg : RegMap Nat) (cid : Int) (name : String)
    (world : Nat → KillBehavior) : Outcome BotStopRes Nat :=
  match reg.lookup cid with
  | none =>
    ⟨.notRunning, "Nenhum processo do ytbot em execução para o canal " ++ name, reg, []⟩
  | some pid =>
    match (killAndWaitWithTimeout (world pid)).1 with
    | Except.ok _ =>
      ⟨.stopped, "ytbot interrompido com sucesso para o canal " ++ name,
        reg.remove cid, [.removed cid, .killSent pid]⟩
    | Except.error _ =>
      ⟨.stopError, "Erro ao interromper o ytbot para o canal " ++ name,
        reg.remove cid, [.removed cid, .killSent pid]⟩

/-- Error body of ytbot_service_status when the status poll errors. -/
def ytbotStatusErrorBody (name : String) : String :=
  "Erro ao verificar o status do ytbot para o canal " ++ name

/-- Body returned by every handler when the channel store lookup fails. -/
def channelLookupErrorBody : String := "Erro ao acessar o canal"

/-! The livestream module: pair registry STREAM_PROCESSES mapping a
channel id to the producer (streamlink) and consumer (ffmpeg) pids. -/

/-- Environment a livestream start attempt runs against, in the order
the code consults it: the request url and whether Url::parse accepts
it, the two executable lookups, the streamlink spawn and its piped
stdout/stderr takes, the ingest configuration for the RTMP extraction,
the ffmpeg spawn and its piped stdin/stdout/stderr takes. -/
structure StreamEnv where
  url : Option String
  urlValid : Bool
  streamlinkPath : Option String
  ffmpegPath : Option String
  slSpawnPid : Option Nat
  slStdoutOk : Bool
  slStderrOk : Bool
  inputParam : String
  ffSpawnPid : Option Nat
  ffStdinOk : Bool
  ffStdoutOk : Bool
  ffStderrOk : Bool
  deriving DecidableEq, Repr

inductive StreamStartRes where
  | alreadyRunning
  | urlMissing
  | urlInvalid
  | slExeNotFound
  | ffExeNotFound
  | slSpawnFailed
  | slStdoutFailed
  | slStderrFailed
  | rtmpError
  | ffSpawnFailed
  | ffStdinFailed
  | ffStdoutFailed
  | ffStderrFailed
  | started
  deriving DecidableEq, Repr

/-- Start branch of livestream_control: under the registry lock, check
for an existing entry, validate the url, locate both executables, spawn
streamlink and take its pipes, extract the RTMP details, spawn ffmpeg
and take its pipes; every failure after a spawn kills the already
spawned leg (or both legs), and only full success inserts the pair. -/
def livestreamStart (reg : RegMap (Nat × Nat)) (cid : Int) (name : String)
    (env : StreamEnv) : Outcome StreamStartRes (Nat × Nat) :=
  if reg.containsKey cid then
    ⟨.alreadyRunning, "Stream já está em execução para o canal " ++ name, reg, []⟩
  else
    match env.url with
    | none => ⟨.urlMissing, "URL não fornecida", reg, []⟩
    | some _ =>
      if env.urlValid = false then
        ⟨.urlInvalid, "URL inválida", reg, []⟩
      else
        match env.streamlinkPath with
        | none => ⟨.slExeNotFound, "Executável do streamlink não encontrado", reg, []⟩
        | some _ =>
          match env.ffmpegPath with
          | none => ⟨.ffExeNotFound, "Executável do ffmpeg não encontrado", reg, []⟩
          | some _ =>
            match env.slSpawnPid with
            | none => ⟨.slSpawnFailed, "Erro ao iniciar o streaming", reg, []⟩
            | some sl =>
              if env.slStdoutOk = false then
                ⟨.slStdoutFailed, "Erro ao iniciar o streaming", reg,
                  [.spawned sl, .killSent sl]⟩
              else if env.slStderrOk = false then
                ⟨.slStderrFailed, "Erro ao iniciar o streaming", reg,
                  [.spawned sl, .killSent sl]⟩
              else
                match extract_rtmp_stream_details env.inputParam with
                | Except.error _ =>
                  ⟨.rtmpError, "Erro ao extrair detalhes RTMP", reg,
                    [.spawned sl, .killSent sl]⟩
                | Except.ok _ =>
                  match env.ffSpawnPid with
                  | none =>
                    ⟨.ffSpawnFailed, "Erro ao iniciar o streaming", reg,
                      [.spawned sl, .killSent sl]⟩
                  | some ff =>
                    if env.ffStdinOk = false then
                      ⟨.ffStdinFailed, "Erro ao iniciar o streaming", reg,
                        [.spawned sl, .spawned ff, .killSent sl, .killSent ff]⟩
                    else if env.ffStdoutOk = false then
                      ⟨.ffStdoutFailed, "Erro ao iniciar o streaming", reg,
                        [.spawned sl, .spawned ff, .killSent sl, .killSent ff]⟩
                    else if env.ffStderrOk = false then
                      ⟨.ffStderrFailed, "Erro ao iniciar o streaming", reg,
                        [.spawned sl, .spawned ff, .killSent sl, .killSent ff]⟩
                    else
                      ⟨.started, "Stream iniciado para canal " ++ name,
                        reg.insert cid (sl, ff),
                        [.spawned sl, .spawned ff, .inserted cid]⟩

/-- Embedding of is_ffmpeg_livestream_active: remove the pair, poll only
the ffmpeg (consumer) member with try_wait, and re-insert the same pair
only when that member is still alive. The streamlink (producer) member
is never polled. -/
def is_ffmpeg_livestream_active (reg : RegMap (Nat × Nat)) (cid : Int)
    (world : Nat → PollRes) : Except String Bool × RegMap (Nat × Nat) :=
  match reg.lookup cid with
  | some (sl, ff) =>
    match world ff with
    | .exited => (Except.ok false, reg.remove cid)
    | .alive => (Except.ok true, (reg.remove cid).insert cid (sl, ff))
    | .pollErr e => (Except.error e, reg.remove cid)
  | none => (Except.ok false, reg)

inductive StreamStopRes where
  | notRunning
  | stopped
  | bothFailed
  | oneFailed
  deriving DecidableEq, Repr

/-- Stop branch of livestream_control: remove the pair first, then kill
and wait each member in turn with the bounded timeout; kill errors are
reported but the entry stays removed. -/
def livestreamStop (reg : RegMap (Nat × Nat)) (cid : Int) (name : String)
    (world : Nat → KillBehavior) : Outcome StreamStopRes (Nat × Nat) :=
  match reg.lookup cid with
  | none =>
    ⟨.notRunning, "Nenhum stream está em execução para o canal " ++ name, reg, []⟩
  | some (sl, ff) =>
    match (killAndWaitWithTimeout (world sl)).1, (killAndWaitWithTimeout (world ff)).1 with
    | Except.ok _, Except.ok _ =>
      ⟨.stopped, "Stream Encerrado para o canal " ++ name,
        reg.remove cid, [.removed cid, .killSent sl, .killSent ff]⟩
    | Except.error _, Except.error _ =>
      ⟨.bothFailed, "Erro ao parar streaming do canal " ++ name,
        reg.remove cid, [.removed cid, .killSent sl, .killSent ff]⟩
    | _, _ =>
      ⟨.oneFailed, "Erro ao parar um dos processos do streaming do canal " ++ name,
        reg.remove cid, [.removed cid, .killSent sl, .killSent ff]⟩

/-- Error body of livestream_ffmpeg_status when the status poll errors. -/
def livestreamStatusErrorBody (name : String) : String :=
  "Erro ao verificar o status do ffmpeg para o canal " ++ name

/-- Way the relay copy from streamlink stdout into ffmpeg stdin ends:
normal closure of the stream (tokio::io::copy returns Ok) or an I/O
error (copy returns Err). -/
inductive CopyOutcome where
  | closed
  | ioError (msg : String)
  deriving DecidableEq, Repr

/-- Teardown performed by the spawned relay copy task when the copy
ends: only in the error case does it kill the two processes, streamlink
first and then ffmpeg, each kill result being discarded (the kill-result
oracle is ignored, so one failing kill never suppresses the other). In
the normal-closure case the task simply finishes. -/
def relayOnCopyEnd (out : CopyOutcome) (sl ff : Nat) (killResult : Nat → Bool) :
    List Event :=
  match out with
  | .closed => []
  | .ioError _ =>
    match killResult sl, killResult ff with
    | _, _ => [.killSent sl, .killSent ff]

/-! Characterizations of the start branches. -/

lemma ytbotStart_already (reg : RegMap Nat) (cid : Int) (name : String)
    (env : BotEnv) (h : reg.containsKey cid = true) :
    ytbotStart reg cid name env
      = ⟨.alreadyRunning, "O ytbot já está em execução para o canal " ++ name, reg, []⟩ := by
  simp [ytbotStart, h]

lemma livestreamStart_already (reg : RegMap (Nat × Nat)) (cid : Int) (name : String)
    (env : StreamEnv) (h : reg.containsKey cid = true) :
    livestreamStart reg cid name env
      = ⟨.alreadyRunning, "Stream já está em execução para o canal " ++ name, reg, []⟩ := by
  simp [livestreamStart, h]

lemma ytbotStart_fresh (reg : RegMap Nat) (cid : Int) (name : String)
    (env : BotEnv) (h : reg.containsKey cid = false) :
    ((ytbotStart reg cid name env).res = BotStartRes.started
      ∧ ∃ pid, env.spawnPid = some pid
        ∧ (ytbotStart reg cid name env).reg = reg.insert cid pid
        ∧ (ytbotStart reg cid name env).events = [Event.spawned pid, Event.inserted cid])
    ∨ ((ytbotStart reg cid name env).res ≠ BotStartRes.started
      ∧ (ytbotStart reg cid name env).res ≠ BotStartRes.alreadyRunning
      ∧ (ytbotStart reg cid name env).reg = reg
      ∧ ((ytbotStart reg cid name env).events = []
        ∨ ∃ pid, (ytbotStart reg cid name env).events
            = [Event.spawned pid, Event.killSent pid])) := by
  rcases env with ⟨exe, ip, sp, so, se⟩
  simp only [ytbotStart, h, Bool.false_eq_true, if_false]
  cases exe with
  | none => exact Or.inr ⟨by simp, by simp, rfl, Or.inl rfl⟩
  | some p =>
    simp only
    cases hr : extract_rtmp_stream_details ip with
    | error e => exact Or.inr ⟨by simp, by simp, rfl, Or.inl rfl⟩
    | ok s =>
      cases sp with
      | none => exact Or.inr ⟨by simp, by simp, rfl, Or.inl rfl⟩
      | some pid =>
        cases so with
        | false => exact Or.inr ⟨by simp, by simp, rfl, Or.inr ⟨pid, rfl⟩⟩
        | true =>
          cases se with
          | false => exact Or.inr ⟨by simp, by simp, rfl, Or.inr ⟨pid, rfl⟩⟩
          | true => exact Or.inl ⟨rfl, pid, rfl, rfl, rfl⟩

lemma livestreamStart_fresh (reg : RegMap (Nat × Nat)) (cid : Int) (name : String)
    (env : StreamEnv) (h : reg.containsKey cid = false) :
    ((livestreamStart reg cid name env).res = StreamStartRes.started
      ∧ ∃ sl ff, env.slSpawnPid = some sl ∧ env.ffSpawnPid = some ff
        ∧ (livestreamStart reg cid name env).reg = reg.insert cid (sl, ff)
        ∧ (livestreamStart reg cid name env).events
            = [Event.spawned sl, Event.spawned ff, Event.inserted cid])
    ∨ ((livestreamStart reg cid name env).res ≠ StreamStartRes.started
      ∧ (livestreamStart reg cid name env).res ≠ StreamStartRes.alreadyRunning
      ∧ (livestreamStart reg cid name env).reg = reg
      ∧ ((livestreamStart reg cid name env).events = []
        ∨ (∃ sl, (livestreamStart reg cid name env).events
            = [Event.spawned sl, Event.killSent sl])
        ∨ (∃ sl ff, (livestreamStart reg cid name env).events
            = [Event.spawned sl, Event.spawned ff,
               Event.killSent sl, Event.killSent ff]))) := by
  rcases env with ⟨u, uv, slp, ffp, slsp, slso, slse, ip, ffsp, ffsi, ffso, ffse⟩
  simp only [livestreamStart, h, Bool.false_eq_true, if_false]
  cases u with
  | none => exact Or.inr ⟨by simp, by simp, rfl, Or.inl rfl⟩
  | some uu =>
    simp only
    cases uv with
    | false => exact Or.inr ⟨by simp, by simp, rfl, Or.inl rfl⟩
    | true =>
      simp only [Bool.true_eq_false, if_false]
      cases slp with
      | none => exact Or.inr ⟨by simp, by simp, rfl, Or.inl rfl⟩
      | some pp =>
        simp only
        cases ffp with
        | none => exact Or.inr ⟨by simp, by simp, rfl, Or.inl rfl⟩
        | some qq =>
          simp only
          cases slsp with
          | none => exact Or.inr ⟨by simp, by simp, rfl, Or.inl rfl⟩
          | some sl =>
            simp only
            cases slso with
            | false => exact Or.inr ⟨by simp, by simp, rfl, Or.inr (Or.inl ⟨sl, rfl⟩)⟩
            | true =>
              simp only [Bool.true_eq_false, if_false]
              cases slse with
              | false => exact Or.inr ⟨by simp, by simp, rfl, Or.inr (Or.inl ⟨sl, rfl⟩)⟩
              | true =>
                simp only [Bool.true_eq_false, if_false]
                cases hr : extract_rtmp_stream_details ip with
                | error e => exact Or.inr ⟨by simp, by simp, rfl, Or.inr (Or.inl ⟨sl, rfl⟩)⟩
                | ok s =>
                  cases ffsp with
                  | none => exact Or.inr ⟨by simp, by simp, rfl, Or.inr (Or.inl ⟨sl, rfl⟩)⟩
                  | some ff =>
                    simp only
                    cases ffsi with
                    | false =>
                      exact Or.inr ⟨by simp, by simp, rfl, Or.inr (Or.inr ⟨sl, ff, rfl⟩)⟩
                    | true =>
                      simp only [Bool.true_eq_false, if_false]
                      cases ffso with
                      | false =>
                        exact Or.inr ⟨by simp, by simp, rfl, Or.inr (Or.inr ⟨sl, ff, rfl⟩)⟩
                      | true =>
                        simp only [Bool.true_eq_false, if_false]
                        cases ffse with
                        | false =>
                          exact Or.inr ⟨by simp, by simp, rfl, Or.inr (Or.inr ⟨sl, ff, rfl⟩)⟩
                        | true => exact Or.inl ⟨rfl, sl, ff, rfl, rfl, rfl, rfl⟩

/-- Sample start environment for the bot kind in which every external
step succeeds. -/
def sampleBotEnv : BotEnv :=
  ⟨some ("/usr/local/bin/ytbot.sh"), (":1935/x"), some 7, true, true⟩

/-- Sample start environment for the stream kind in which every external
step succeeds. -/
def sampleStreamEnv : StreamEnv :=
  ⟨some ("https://example.com/live"), true, some ("/home/u/livebot/venv/bin/streamlink"),
    some ("/usr/bin/ffmpeg"), some 11, true, true, (":1935/x"), some 12, true, true, true⟩

/-- C1: on both registries, a start against an existing entry fails as
already-running, spawns nothing and leaves the registry unchanged; and
a successful start followed by a second start yields already-running on
the second call, with exactly one registered entry for the channel. -/
theorem start_is_idempotent_per_channel :
    (∀ (reg : RegMap Nat) (cid : Int) (name : String) (env : BotEnv),
      reg.containsKey cid = true →
        (ytbotStart reg cid name env).res = BotStartRes.alreadyRunning
        ∧ (ytbotStart reg cid name env).reg = reg
        ∧ (ytbotStart reg cid name env).events = [])
    ∧ (∀ (reg : RegMap (Nat × Nat)) (cid : Int) (name : String) (env : StreamEnv),
      reg.containsKey cid = true →
        (livestreamStart reg cid name env).res = StreamStartRes.alreadyRunning
        ∧ (livestreamStart reg cid name env).reg = reg
        ∧ (livestreamStart reg cid name env).events = [])
    ∧ (∀ (reg : RegMap Nat) (cid : Int) (name name2 : String) (env env2 : BotEnv),
      (ytbotStart reg cid name env).res = BotStartRes.started →
        (ytbotStart (ytbotStart reg cid name env).reg cid name2 env2).res
            = BotStartRes.alreadyRunning
        ∧ (ytbotStart (ytbotStart reg cid name env).reg cid name2 env2).reg
            = (ytbotStart reg cid name env).reg
        ∧ (ytbotStart (ytbotStart reg cid name env).reg cid name2 env2).events = []
        ∧ (ytbotStart reg cid name env).reg.countKey cid = 1)
    ∧ (∀ (reg : RegMap (Nat × Nat)) (cid : Int) (name name2 : String)
        (env env2 : StreamEnv),
      (livestreamStart reg cid name env).res = StreamStartRes.started →
        (livestreamStart (livestreamStart reg cid name env).reg cid name2 env2).res
            = StreamStartRes.alreadyRunning
        ∧ (livestreamStart (livestreamStart reg cid name env).reg cid name2 env2).reg
            = (livestreamStart reg cid name env).reg
        ∧ (livestreamStart (livestreamStart reg cid name env).reg cid name2 env2).events = []
        ∧ (livestreamStart reg cid name env).reg.countKey cid = 1) := by
  refine ⟨?_, ?_, ?_, ?_⟩
  · intro reg cid name env h
    rw [ytbotStart_already reg cid name env h]
    exact ⟨rfl, rfl, rfl⟩
  · intro reg cid name env h
    rw [livestreamStart_already reg cid name env h]
    exact ⟨rfl, rfl, rfl⟩
  · intro reg cid name name2 env env2 hstart
    by_cases hc : reg.containsKey cid = true
    · rw [ytbotStart_already reg cid name env hc] at hstart
      exact absurd hstart (by simp)
    · have hc2 : reg.containsKey cid = false := by
        cases h2 : reg.containsKey cid
        · rfl
        · exact absurd h2 hc
      rcases ytbotStart_fresh reg cid name env hc2 with hok | hbad
      · obtain ⟨hres, pid, hsp, hreg, hev⟩ := hok
        have hcontains : (ytbotStart reg cid name env).reg.containsKey cid = true := by
          rw [hreg]; exact RegMap.containsKey_insert_self reg cid pid
        rw [ytbotStart_already _ cid name2 env2 hcontains]
        refine ⟨rfl, rfl, rfl, ?_⟩
        rw [hreg]
        exact RegMap.countKey_insert_self reg cid pid
      · exact absurd hstart hbad.1
  · intro reg cid name name2 env env2 hstart
    by_cases hc : reg.containsKey cid = true
    · rw [livestreamStart_already reg cid name env hc] at hstart
      exact absurd hstart (by simp)
    · have hc2 : reg.containsKey cid = false := by
        cases h2 : reg.containsKey cid
        · rfl
        · exact absurd h2 hc
      rcases livestreamStart_fresh reg cid name env hc2 with hok | hbad
      · obtain ⟨hres, sl, ff, hsl, hff, hreg, hev⟩ := hok
        have hcontains :
            (livestreamStart reg cid name env).reg.containsKey cid = true := by
          rw [hreg]; exact RegMap.containsKey_insert_self reg cid (sl, ff)
        rw [livestreamStart_already _ cid name2 env2 hcontains]
        refine ⟨rfl, rfl, rfl, ?_⟩
        rw [hreg]
        exact RegMap.countKey_insert_self reg cid (sl, ff)
      · exact absurd hstart hbad.1

/-- Witness for C1: concrete double starts on both kinds, and a start
against a concrete pre-existing entry. -/
theorem start_is_idempotent_per_channel_witness :
    ((ytbotStart ⟨[(1, 5)]⟩ 1 ("ch") sampleBotEnv).res = BotStartRes.alreadyRunning)
    ∧ ((ytbotStart (ytbotStart ⟨[]⟩ 1 ("ch") sampleBotEnv).reg 1 ("ch") sampleBotEnv).res
        = BotStartRes.alreadyRunning
      ∧ (ytbotStart ⟨[]⟩ 1 ("ch") sampleBotEnv).reg.countKey 1 = 1)
    ∧ ((livestreamStart (livestreamStart ⟨[]⟩ 2 ("ch") sampleStreamEnv).reg 2 ("ch")
          sampleStreamEnv).res = StreamStartRes.alreadyRunning
      ∧ (livestreamStart ⟨[]⟩ 2 ("ch") sampleStreamEnv).reg.countKey 2 = 1) :=
  ⟨(start_is_idempotent_per_channel.1 ⟨[(1, 5)]⟩ 1 ("ch") sampleBotEnv (by decide)).1,
   ⟨(start_is_idempotent_per_channel.2.2.1 ⟨[]⟩ 1 ("ch") ("ch") sampleBotEnv sampleBotEnv
      (by decide)).1,
    (start_is_idempotent_per_channel.2.2.1 ⟨[]⟩ 1 ("ch") ("ch") sampleBotEnv sampleBotEnv
      (by decide)).2.2.2⟩,
   ⟨(start_is_idempotent_per_channel.2.2.2 ⟨[]⟩ 2 ("ch") ("ch") sampleStreamEnv
      sampleStreamEnv (by decide)).1,
    (start_is_idempotent_per_channel.2.2.2 ⟨[]⟩ 2 ("ch") ("ch") sampleStreamEnv
      sampleStreamEnv (by decide)).2.2.2⟩⟩

lemma ytbotStart_not_already (reg : RegMap Nat) (cid : Int) (name : String)
    (env : BotEnv) (h : reg.containsKey cid = false) :
    (ytbotStart reg cid name env).res ≠ BotStartRes.alreadyRunning := by
  rcases ytbotStart_fresh reg cid name env h with hok | hbad
  · rw [hok.1]; simp
  · exact hbad.2.1

lemma livestreamStart_not_already (reg : RegMap (Nat × Nat)) (cid : Int)
    (name : String) (env : StreamEnv) (h : reg.containsKey cid = false) :
    (livestreamStart reg cid name env).res ≠ StreamStartRes.alreadyRunning := by
  rcases livestreamStart_fresh reg cid name env h with hok | hbad
  · rw [hok.1]; simp
  · exact hbad.2.1

lemma RegMap.lookup_reinsert {α : Type} (m : RegMap α) (k : Int) (v : α)
    (h : m.lookup k = some v) (k2 : Int) :
    ((m.remove k).insert k v).lookup k2 = m.lookup k2 := by
  rw [RegMap.lookup_insert]
  by_cases h2 : k2 = k
  · subst h2; rw [if_pos rfl, h]
  · rw [if_neg h2, RegMap.lookup_remove, if_neg h2]

lemma RegMap.containsKey_iff {α : Type} (m : RegMap α) (k : Int) :
    m.containsKey k = true ↔ ∃ v, m.lookup k = some v := by
  cases h : lookupL m.entries k <;> simp [RegMap.containsKey, RegMap.lookup, h]

/-- Reported service status: the handlers serialize the boolean liveness
answer as active or inactive. -/
inductive ServiceStatus where
  | active
  | inactive
  deriving DecidableEq, Repr

def statusOf (b : Bool) : ServiceStatus :=
  if b then ServiceStatus.active else ServiceStatus.inactive

/-- C2: after a status call on either registry, the registry holds an
entry for the channel exactly when the polled process (the bot child, or
the consumer member of the stream pair) was found still alive; a poll
that reports exit leaves the entry removed and reports inactive, so a
subsequent start is not rejected as already-running; a live poll reports
active and re-inserts the very same entry. -/
theorem status_reflects_liveness :
    (∀ (reg : RegMap Nat) (cid : Int) (world : Nat → PollRes),
      ((is_ytbot_active reg cid world).2.containsKey cid = true
        ↔ ∃ pid, reg.lookup cid = some pid ∧ world pid = PollRes.alive)
      ∧ (∀ pid, reg.lookup cid = some pid → world pid = PollRes.exited →
          (is_ytbot_active reg cid world).1.map statusOf
              = Except.ok ServiceStatus.inactive
          ∧ (is_ytbot_active reg cid world).2 = reg.remove cid
          ∧ ∀ (name : String) (env : BotEnv),
              (ytbotStart (is_ytbot_active reg cid world).2 cid name env).res
                ≠ BotStartRes.alreadyRunning)
      ∧ (∀ pid, reg.lookup cid = some pid → world pid = PollRes.alive →
          (is_ytbot_active reg cid world).1.map statusOf
              = Except.ok ServiceStatus.active
          ∧ (is_ytbot_active reg cid world).2.lookup cid = some pid
          ∧ ∀ k, (is_ytbot_active reg cid world).2.lookup k = reg.lookup k))
    ∧ (∀ (reg : RegMap (Nat × Nat)) (cid : Int) (world : Nat → PollRes),
      ((is_ffmpeg_livestream_active reg cid world).2.containsKey cid = true
        ↔ ∃ sl ff, reg.lookup cid = some (sl, ff) ∧ world ff = PollRes.alive)
      ∧ (∀ sl ff, reg.lookup cid = some (sl, ff) → world ff = PollRes.exited →
          (is_ffmpeg_livestream_active reg cid world).1.map statusOf
              = Except.ok ServiceStatus.inactive
          ∧ (is_ffmpeg_livestream_active reg cid world).2 = reg.remove cid
          ∧ ∀ (name : String) (env : StreamEnv),
              (livestreamStart (is_ffmpeg_livestream_active reg cid world).2 cid
                  name env).res ≠ StreamStartRes.alreadyRunning)
      ∧ (∀ sl ff, reg.lookup cid = some (sl, ff) → world ff = PollRes.alive →
          (is_ffmpeg_livestream_active reg cid world).1.map statusOf
              = Except.ok ServiceStatus.active
          ∧ (is_ffmpeg_livestream_active reg cid world).2.lookup cid = some (sl, ff)
          ∧ ∀ k, (is_ffmpeg_livestream_active reg cid world).2.lookup k
              = reg.lookup k)) := by
  constructor
  · intro reg cid world
    refine ⟨?_, ?_, ?_⟩
    · cases hl : reg.lookup cid with
      | none =>
        simp only [is_ytbot_active, hl]
        simp [RegMap.containsKey_iff, hl]
      | some pid =>
        cases hw : world pid with
        | exited =>
          simp only [is_ytbot_active, hl, hw]
          simp [RegMap.containsKey_remove_self, hw]
        | alive =>
          simp only [is_ytbot_active, hl, hw]
          simp [RegMap.containsKey_insert_self, hw]
        | pollErr e =>
          simp only [is_ytbot_active, hl, hw]
          simp [RegMap.containsKey_remove_self, hw]
    · intro pid hl hw
      refine ⟨?_, ?_, ?_⟩
      · simp only [is_ytbot_active, hl, hw]
        rfl
      · simp [is_ytbot_active, hl, hw]
      · intro name env
        have h2 : (is_ytbot_active reg cid world).2 = reg.remove cid := by
          simp [is_ytbot_active, hl, hw]
        rw [h2]
        exact ytbotStart_not_already _ cid name env
          (RegMap.containsKey_remove_self reg cid)
    · intro pid hl hw
      simp only [is_ytbot_active, hl, hw]
      exact ⟨rfl, by rw [RegMap.lookup_reinsert reg cid pid hl cid, hl],
        fun k => RegMap.lookup_reinsert reg cid pid hl k⟩
  · intro reg cid world
    refine ⟨?_, ?_, ?_⟩
    · cases hl : reg.lookup cid with
      | none =>
        simp only [is_ffmpeg_livestream_active, hl]
        simp [RegMap.containsKey_iff, hl]
      | some pr =>
        obtain ⟨sl, ff⟩ := pr
        cases hw : world ff with
        | exited =>
          simp only [is_ffmpeg_livestream_active, hl, hw]
          simp [RegMap.containsKey_remove_self, hw]
        | alive =>
          simp only [is_ffmpeg_livestream_active, hl, hw]
          exact ⟨fun _ => ⟨sl, ff, rfl, hw⟩,
            fun _ => RegMap.containsKey_insert_self _ _ _⟩
        | pollErr e =>
          simp only [is_ffmpeg_livestream_active, hl, hw]
          simp [RegMap.containsKey_remove_self, hw]
    · intro sl ff hl hw
      refine ⟨?_, ?_, ?_⟩
      · simp only [is_ffmpeg_livestream_active, hl, hw]
        rfl
      · simp [is_ffmpeg_livestream_active, hl, hw]
      · intro name env
        have h2 : (is_ffmpeg_livestream_active reg cid world).2 = reg.remove cid := by
          simp [is_ffmpeg_livestream_active, hl, hw]
        rw [h2]
        exact livestreamStart_not_already _ cid name env
          (RegMap.containsKey_remove_self reg cid)
    · intro sl ff hl hw
      simp only [is_ffmpeg_livestream_active, hl, hw]
      exact ⟨rfl, by rw [RegMap.lookup_reinsert reg cid (sl, ff) hl cid, hl],
        fun k => RegMap.lookup_reinsert reg cid (sl, ff) hl k⟩

/-- Witness for C2: a concrete dead entry is removed and reported
inactive, a concrete live entry is kept and reported active. -/
theorem status_reflects_liveness_witness :
    ((is_ytbot_active ⟨[(1, 5)]⟩ 1 (fun _ => PollRes.exited)).1.map statusOf
        = Except.ok ServiceStatus.inactive
      ∧ (is_ytbot_active ⟨[(1, 5)]⟩ 1 (fun _ => PollRes.exited)).2
        = (⟨[(1, 5)]⟩ : RegMap Nat).remove 1)
    ∧ ((is_ffmpeg_livestream_active ⟨[(2, (10, 20))]⟩ 2 (fun _ => PollRes.alive)).1.map
          statusOf = Except.ok ServiceStatus.active
      ∧ (is_ffmpeg_livestream_active ⟨[(2, (10, 20))]⟩ 2
          (fun _ => PollRes.alive)).2.lookup 2 = some (10, 20)) :=
  ⟨⟨((status_reflects_liveness.1 ⟨[(1, 5)]⟩ 1 (fun _ => PollRes.exited)).2.1 5
      (by decide) (by decide)).1,
    ((status_reflects_liveness.1 ⟨[(1, 5)]⟩ 1 (fun _ => PollRes.exited)).2.1 5
      (by decide) (by decide)).2.1⟩,
   ⟨((status_reflects_liveness.2 ⟨[(2, (10, 20))]⟩ 2 (fun _ => PollRes.alive)).2.2 10 20
      (by decide) (by decide)).1,
    ((status_reflects_liveness.2 ⟨[(2, (10, 20))]⟩ 2 (fun _ => PollRes.alive)).2.2 10 20
      (by decide) (by decide)).2.1⟩⟩

/-- C3 (code bug): stop removes the registry entry before the kill call
(the removal event precedes every kill event), never re-inserts it, and
a subsequent start is accepted — but the claimed 5 second bound on the
wait does not exist in the program: tokio Child::kill already waits,
unboundedly, for the process to exit, so for every exit delay n the
stop call reports success after waiting the full n seconds, the timeout
arm of kill_and_wait_with_timeout is unreachable, and no kill-timeout
failure is ever reported; at the failing input — a process that dies 9
seconds after the signal — stop succeeds instead of reporting a
KillTimeout after 5. -/
theorem stop_wait_unbounded :
    stopTimeoutSecs = 5
    ∧ (∀ n : Nat, killAndWaitWithTimeout (KillBehavior.exitsAfter n)
        = (Except.ok (), n))
    ∧ (∀ (reg : RegMap Nat) (cid : Int) (name : String)
        (world : Nat → KillBehavior) (pid n : Nat),
      reg.lookup cid = some pid → world pid = KillBehavior.exitsAfter n →
        (ytbotStop reg cid name world).res = BotStopRes.stopped
        ∧ (ytbotStop reg cid name world).reg = reg.remove cid
        ∧ (ytbotStop reg cid name world).reg.containsKey cid = false
        ∧ (ytbotStop reg cid name world).events
            = [Event.removed cid, Event.killSent pid]
        ∧ (∀ (name2 : String) (env : BotEnv),
            (ytbotStart (ytbotStop reg cid name world).reg cid name2 env).res
              ≠ BotStartRes.alreadyRunning))
    ∧ (∀ (reg : RegMap (Nat × Nat)) (cid : Int) (name : String)
        (world : Nat → KillBehavior) (sl ff n m : Nat),
      reg.lookup cid = some (sl, ff) → world sl = KillBehavior.exitsAfter n →
      world ff = KillBehavior.exitsAfter m →
        (livestreamStop reg cid name world).res = StreamStopRes.stopped
        ∧ (livestreamStop reg cid name world).reg = reg.remove cid
        ∧ (livestreamStop reg cid name world).reg.containsKey cid = false
        ∧ (livestreamStop reg cid name world).events
            = [Event.removed cid, Event.killSent sl, Event.killSent ff])
    ∧ ((ytbotStop ⟨[(1, 5)]⟩ 1 ("ch") (fun _ => KillBehavior.exitsAfter 9)).res
        = BotStopRes.stopped
      ∧ (killAndWaitWithTimeout (KillBehavior.exitsAfter 9)).2 = 9
      ∧ stopTimeoutSecs < (killAndWaitWithTimeout (KillBehavior.exitsAfter 9)).2) := by
  refine ⟨rfl, fun n => rfl, ?_, ?_, by decide, by decide, by decide⟩
  · intro reg cid name world pid n hl hw
    have hk : (killAndWaitWithTimeout (world pid)).1 = Except.ok () := by
      rw [hw]
      rfl
    simp only [ytbotStop, hl, hk]
    refine ⟨by trivial, by trivial, RegMap.containsKey_remove_self reg cid,
      by trivial, ?_⟩
    intro name2 env
    exact ytbotStart_not_already _ cid name2 env
      (RegMap.containsKey_remove_self reg cid)
  · intro reg cid name world sl ff n m hl hwsl hwff
    have hksl : (killAndWaitWithTimeout (world sl)).1 = Except.ok () := by
      rw [hwsl]
      rfl
    have hkff : (killAndWaitWithTimeout (world ff)).1 = Except.ok () := by
      rw [hwff]
      rfl
    simp only [livestreamStop, hl, hksl, hkff]
    exact ⟨by trivial, by trivial, RegMap.containsKey_remove_self reg cid, by trivial⟩

/-- Witness for C3: the concrete failing input evaluated through the
model — a stop whose process exits 9 seconds after the signal still
reports success with the entry removed, on both kinds. -/
theorem stop_wait_unbounded_witness :
    ((ytbotStop ⟨[(1, 5)]⟩ 1 ("ch") (fun _ => KillBehavior.exitsAfter 9)).res
        = BotStopRes.stopped
      ∧ (ytbotStop ⟨[(1, 5)]⟩ 1 ("ch")
          (fun _ => KillBehavior.exitsAfter 9)).reg.containsKey 1 = false)
    ∧ (livestreamStop ⟨[(2, (10, 20))]⟩ 2 ("ch")
        (fun _ => KillBehavior.exitsAfter 9)).res = StreamStopRes.stopped :=
  ⟨⟨(stop_wait_unbounded.2.2.1 ⟨[(1, 5)]⟩ 1 ("ch")
      (fun _ => KillBehavior.exitsAfter 9) 5 9 (by decide) rfl).1,
    (stop_wait_unbounded.2.2.1 ⟨[(1, 5)]⟩ 1 ("ch")
      (fun _ => KillBehavior.exitsAfter 9) 5 9 (by decide) rfl).2.2.1⟩,
   (stop_wait_unbounded.2.2.2.1 ⟨[(2, (10, 20))]⟩ 2 ("ch")
      (fun _ => KillBehavior.exitsAfter 9) 10 20 9 9 (by decide) rfl rfl).1⟩

/-- C7: on both kinds, stop on a channel with no registry entry reports
not-running, leaves the registry unchanged and signals no process. -/
theorem stop_not_running_unchanged :
    (∀ (reg : RegMap Nat) (cid : Int) (name : String) (world : Nat → KillBehavior),
      reg.lookup cid = none →
        (ytbotStop reg cid name world).res = BotStopRes.notRunning
        ∧ (ytbotStop reg cid name world).reg = reg
        ∧ (ytbotStop reg cid name world).events = [])
    ∧ (∀ (reg : RegMap (Nat × Nat)) (cid : Int) (name : String)
        (world : Nat → KillBehavior),
      reg.lookup cid = none →
        (livestreamStop reg cid name world).res = StreamStopRes.notRunning
        ∧ (livestreamStop reg cid name world).reg = reg
        ∧ (livestreamStop reg cid name world).events = []) := by
  constructor
  · intro reg cid name world hl
    simp only [ytbotStop, hl]
    exact ⟨by trivial, by trivial, by trivial⟩
  · intro reg cid name world hl
    simp only [livestreamStop, hl]
    exact ⟨by trivial, by trivial, by trivial⟩

/-- Witness for C7: stop on concrete registries without the channel. -/
theorem stop_not_running_unchanged_witness :
    ((ytbotStop ⟨[(2, 5)]⟩ 1 ("ch") (fun _ => KillBehavior.exitsAfter 0)).res
        = BotStopRes.notRunning
      ∧ (ytbotStop ⟨[(2, 5)]⟩ 1 ("ch") (fun _ => KillBehavior.exitsAfter 0)).reg
        = (⟨[(2, 5)]⟩ : RegMap Nat))
    ∧ ((livestreamStop ⟨[]⟩ 1 ("ch") (fun _ => KillBehavior.exitsAfter 0)).res
        = StreamStopRes.notRunning
      ∧ (livestreamStop ⟨[]⟩ 1 ("ch") (fun _ => KillBehavior.exitsAfter 0)).events
        = []) :=
  ⟨⟨(stop_not_running_unchanged.1 ⟨[(2, 5)]⟩ 1 ("ch")
      (fun _ => KillBehavior.exitsAfter 0) (by decide)).1,
    (stop_not_running_unchanged.1 ⟨[(2, 5)]⟩ 1 ("ch")
      (fun _ => KillBehavior.exitsAfter 0) (by decide)).2.1⟩,
   ⟨(stop_not_running_unchanged.2 ⟨[]⟩ 1 ("ch")
      (fun _ => KillBehavior.exitsAfter 0) (by decide)).1,
    (stop_not_running_unchanged.2 ⟨[]⟩ 1 ("ch")
      (fun _ => KillBehavior.exitsAfter 0) (by decide)).2.2⟩⟩

/-- Counterexample to C4: a registered pair whose producer (streamlink,
pid 10) has exited while the consumer (ffmpeg, pid 20) is alive is still
reported active by the stream status check, and the entry is kept, even
though one member of the pair has died. -/
theorem stream_status_ignores_producer :
    ((fun pid => if pid = 10 then PollRes.exited else PollRes.alive) 10
        = PollRes.exited)
    ∧ (is_ffmpeg_livestream_active ⟨[(1, (10, 20))]⟩ 1
        (fun pid => if pid = 10 then PollRes.exited else PollRes.alive)).1.map statusOf
        = Except.ok ServiceStatus.active
    ∧ (is_ffmpeg_livestream_active ⟨[(1, (10, 20))]⟩ 1
        (fun pid => if pid = 10 then PollRes.exited else PollRes.alive)).2.containsKey 1
        = true := by
  refine ⟨by decide, by rfl, by rfl⟩

/-- C4 amended: the stream registry judges a registered pair solely by
its consumer (ffmpeg) member: a status call reports inactive and removes
the entry exactly when the consumer has exited, and reports active and
keeps the entry whenever the consumer is alive, regardless of the
producer's state, which is never polled. -/
theorem stream_status_consumer_only :
    ∀ (reg : RegMap (Nat × Nat)) (cid : Int) (world : Nat → PollRes) (sl ff : Nat),
      reg.lookup cid = some (sl, ff) →
        (world ff = PollRes.exited →
          (is_ffmpeg_livestream_active reg cid world).1.map statusOf
              = Except.ok ServiceStatus.inactive
          ∧ (is_ffmpeg_livestream_active reg cid world).2 = reg.remove cid)
        ∧ (world ff = PollRes.alive →
          (is_ffmpeg_livestream_active reg cid world).1.map statusOf
              = Except.ok ServiceStatus.active
          ∧ (is_ffmpeg_livestream_active reg cid world).2.containsKey cid = true) := by
  intro reg cid world sl ff hl
  constructor
  · intro hw
    simp only [is_ffmpeg_livestream_active, hl, hw]
    exact ⟨by rfl, by trivial⟩
  · intro hw
    simp only [is_ffmpeg_livestream_active, hl, hw]
    exact ⟨by rfl, RegMap.containsKey_insert_self _ _ _⟩

/-- Witness for the amended C4: a concrete pair whose consumer exited is
reported inactive and removed; one whose consumer lives (with a dead
producer) stays registered. -/
theorem stream_status_consumer_only_witness :
    ((is_ffmpeg_livestream_active ⟨[(1, (10, 20))]⟩ 1 (fun _ => PollRes.exited)).1.map
        statusOf = Except.ok ServiceStatus.inactive
      ∧ (is_ffmpeg_livestream_active ⟨[(1, (10, 20))]⟩ 1 (fun _ => PollRes.exited)).2
        = (⟨[(1, (10, 20))]⟩ : RegMap (Nat × Nat)).remove 1)
    ∧ ((is_ffmpeg_livestream_active ⟨[(1, (10, 20))]⟩ 1
          (fun pid => if pid = 20 then PollRes.alive else PollRes.exited)).2.containsKey 1
        = true) :=
  ⟨(stream_status_consumer_only ⟨[(1, (10, 20))]⟩ 1 (fun _ => PollRes.exited) 10 20
      (by decide)).1 (by decide),
   ((stream_status_consumer_only ⟨[(1, (10, 20))]⟩ 1
      (fun pid => if pid = 20 then PollRes.alive else PollRes.exited) 10 20
      (by decide)).2 (by decide)).2⟩

/-- Counterexample to C6: a relay copy that ends by normal stream
closure (tokio io copy returning Ok) terminates neither process — the
claim that both processes are terminated whenever the copy ends fails
on normal closure. -/
theorem relay_normal_closure_kills_nothing :
    relayOnCopyEnd CopyOutcome.closed 10 20 (fun _ => true) = []
    ∧ ¬ (Event.killSent 10 ∈ relayOnCopyEnd CopyOutcome.closed 10 20 (fun _ => true))
    ∧ ¬ (Event.killSent 20 ∈ relayOnCopyEnd CopyOutcome.closed 10 20 (fun _ => true)) := by
  refine ⟨rfl, by decide, by decide⟩

/-- C6 amended: the relay task terminates both processes of the pair
only when the copy ends with an I/O error; in that case the two kill
attempts are made unconditionally, producer then consumer, whatever
result either kill attempt returns (so a failing kill on one leg never
suppresses the attempt on the other); on normal closure of the copy the
task terminates neither process. -/
theorem relay_kills_on_error_only :
    ∀ (sl ff : Nat) (msg : String) (killResult : Nat → Bool),
      relayOnCopyEnd (CopyOutcome.ioError msg) sl ff killResult
          = [Event.killSent sl, Event.killSent ff]
      ∧ relayOnCopyEnd CopyOutcome.closed sl ff killResult = [] := by
  intro sl ff msg killResult
  exact ⟨rfl, rfl⟩

/-- C8: any livestream start attempt that fails — in particular at every
step after the producer has been spawned (pipe acquisition, target
resolution, consumer spawn, consumer pipe acquisition) — leaves the
registry unchanged, records no entry, and kills every process it had
already spawned before returning. -/
theorem stream_start_failure_cleanup :
    ∀ (reg : RegMap (Nat × Nat)) (cid : Int) (name : String) (env : StreamEnv),
      (livestreamStart reg cid name env).res ≠ StreamStartRes.started →
        (livestreamStart reg cid name env).reg = reg
        ∧ (∀ k, ¬ (Event.inserted k ∈ (livestreamStart reg cid name env).events))
        ∧ (∀ pid, Event.spawned pid ∈ (livestreamStart reg cid name env).events →
            Event.killSent pid ∈ (livestreamStart reg cid name env).events) := by
  intro reg cid name env hres
  by_cases hc : reg.containsKey cid = true
  · rw [livestreamStart_already reg cid name env hc]
    exact ⟨rfl, by simp, by simp⟩
  · have hc2 : reg.containsKey cid = false := by
      cases h2 : reg.containsKey cid
      · rfl
      · exact absurd h2 hc
    rcases livestreamStart_fresh reg cid name env hc2 with hok | hbad
    · exact absurd hok.1 hres
    · obtain ⟨-, -, hreg, hev⟩ := hbad
      refine ⟨hreg, ?_, ?_⟩
      · intro k
        rcases hev with h0 | ⟨sl, h1⟩ | ⟨sl, ff, h2⟩
        · rw [h0]; simp
        · rw [h1]; simp
        · rw [h2]; simp
      · intro pid hp
        rcases hev with h0 | ⟨sl, h1⟩ | ⟨sl, ff, h2⟩
        · rw [h0] at hp; simp at hp
        · rw [h1] at hp ⊢
          simp at hp
          simp [hp]
        · rw [h2] at hp ⊢
          simp at hp
          rcases hp with hp | hp <;> simp [hp]

/-- Witness for C8: a concrete start whose consumer (ffmpeg) spawn fails
after the producer (streamlink, pid 11) was spawned kills the producer
and records nothing. -/
theorem stream_start_failure_cleanup_witness :
    (livestreamStart ⟨[]⟩ 1 ("ch")
        ⟨some ("https://example.com/live"), true, some ("/p/streamlink"),
          some ("/usr/bin/ffmpeg"), some 11, true, true, (":1935/x"),
          none, true, true, true⟩).reg = (⟨[]⟩ : RegMap (Nat × Nat))
    ∧ Event.killSent 11 ∈ (livestreamStart ⟨[]⟩ 1 ("ch")
        ⟨some ("https://example.com/live"), true, some ("/p/streamlink"),
          some ("/usr/bin/ffmpeg"), some 11, true, true, (":1935/x"),
          none, true, true, true⟩).events :=
  ⟨(stream_start_failure_cleanup ⟨[]⟩ 1 ("ch")
      ⟨some ("https://example.com/live"), true, some ("/p/streamlink"),
        some ("/usr/bin/ffmpeg"), some 11, true, true, (":1935/x"),
        none, true, true, true⟩ (by decide)).1,
   (stream_start_failure_cleanup ⟨[]⟩ 1 ("ch")
      ⟨some ("https://example.com/live"), true, some ("/p/streamlink"),
        some ("/usr/bin/ffmpeg"), some 11, true, true, (":1935/x"),
        none, true, true, true⟩ (by decide)).2.2 11 (by decide)⟩

/-! Substring machinery for reasoning about response bodies. -/

/-- Whether the first list occurs at the head of the second. -/
def leadsWith : List Char → List Char → Bool
  | [], _ => true
  | _ :: _, [] => false
  | a :: as, b :: bs => a == b && leadsWith as bs

/-- Whether the first list occurs contiguously anywhere in the second. -/
def containsSub (needle : List Char) : List Char → Bool
  | [] => needle.isEmpty
  | c :: cs => leadsWith needle (c :: cs) || containsSub needle cs

/-- Whether the first string occurs contiguously in the second. -/
def containsStr (needle hay : String) : Bool :=
  containsSub needle.toList hay.toList

lemma leadsWith_self : ∀ l : List Char, leadsWith l l = true := by
  intro l
  induction l with
  | nil => rfl
  | cons a as ih => simp [leadsWith, ih]

lemma containsSub_append_self : ∀ (pre needle : List Char),
    containsSub needle (pre ++ needle) = true := by
  intro pre needle
  induction pre with
  | nil =>
    cases needle with
    | nil => rfl
    | cons c cs => simp [containsSub, leadsWith_self]
  | cons p ps ih => simp [containsSub, ih]

lemma toList_append_eq (a b : String) : (a ++ b).toList = a.toList ++ b.toList := by
  obtain ⟨xs⟩ := a
  obtain ⟨ys⟩ := b
  rfl

lemma containsStr_append_self (pre name : String) :
    containsStr name (pre ++ name) = true := by
  unfold containsStr
  rw [toList_append_eq]
  exact containsSub_append_self _ _

/-! Characterization of the response bodies by result. -/

lemma ytbotStart_body (reg : RegMap Nat) (cid : Int) (name : String) (env : BotEnv) :
    ((ytbotStart reg cid name env).res = BotStartRes.exeNotFound
      ∧ (ytbotStart reg cid name env).body = "Executável do ytbot não encontrado")
    ∨ ((ytbotStart reg cid name env).res ≠ BotStartRes.exeNotFound
      ∧ ∃ pre, (ytbotStart reg cid name env).body = pre ++ name) := by
  by_cases hc : reg.containsKey cid = true
  · rw [ytbotStart_already reg cid name env hc]
    exact Or.inr ⟨by simp, "O ytbot já está em execução para o canal ", rfl⟩
  · have hc2 : reg.containsKey cid = false := by
      cases h2 : reg.containsKey cid
      · rfl
      · exact absurd h2 hc
    rcases env with ⟨exe, ip, sp, so, se⟩
    simp only [ytbotStart, hc2, Bool.false_eq_true, if_false]
    cases exe with
    | none => exact Or.inl ⟨rfl, rfl⟩
    | some p =>
      simp only
      cases hr : extract_rtmp_stream_details ip with
      | error e =>
        exact Or.inr ⟨by simp, "Erro ao extrair detalhes RTMP para o canal ", rfl⟩
      | ok s =>
        cases sp with
        | none => exact Or.inr ⟨by simp, "Erro ao iniciar o ytbot para o canal ", rfl⟩
        | some pid =>
          cases so with
          | false => exact Or.inr ⟨by simp, "Falha ao iniciar o ytbot para o canal ", rfl⟩
          | true =>
            cases se with
            | false =>
              exact Or.inr ⟨by simp, "Falha ao iniciar o ytbot para o canal ", rfl⟩
            | true =>
              exact Or.inr ⟨by simp, "ytbot iniciado com sucesso para o canal ", rfl⟩

lemma livestreamStart_body (reg : RegMap (Nat × Nat)) (cid : Int) (name : String)
    (env : StreamEnv) :
    (((livestreamStart reg cid name env).res = StreamStartRes.alreadyRunning
        ∨ (livestreamStart reg cid name env).res = StreamStartRes.started)
      ∧ ∃ pre, (livestreamStart reg cid name env).body = pre ++ name)
    ∨ ((livestreamStart reg cid name env).res ≠ StreamStartRes.alreadyRunning
      ∧ (livestreamStart reg cid name env).res ≠ StreamStartRes.started
      ∧ ((livestreamStart reg cid name env).body = "URL não fornecida"
        ∨ (livestreamStart reg cid name env).body = "URL inválida"
        ∨ (livestreamStart reg cid name env).body
            = "Executável do streamlink não encontrado"
        ∨ (livestreamStart reg cid name env).body
            = "Executável do ffmpeg não encontrado"
        ∨ (livestreamStart reg cid name env).body = "Erro ao iniciar o streaming"
        ∨ (livestreamStart reg cid name env).body = "Erro ao extrair detalhes RTMP")) := by
  by_cases hc : reg.containsKey cid = true
  · rw [livestreamStart_already reg cid name env hc]
    exact Or.inl ⟨Or.inl rfl, "Stream já está em execução para o canal ", rfl⟩
  · have hc2 : reg.containsKey cid = false := by
      cases h2 : reg.containsKey cid
      · rfl
      · exact absurd h2 hc
    rcases env with ⟨u, uv, slp, ffp, slsp, slso, slse, ip, ffsp, ffsi, ffso, ffse⟩
    simp only [livestreamStart, hc2, Bool.false_eq_true, if_false]
    cases u with
    | none => exact Or.inr ⟨by simp, by simp, Or.inl rfl⟩
    | some uu =>
      simp only
      cases uv with
      | false => exact Or.inr ⟨by simp, by simp, Or.inr (Or.inl rfl)⟩
      | true =>
        simp only [Bool.true_eq_false, if_false]
        cases slp with
        | none => exact Or.inr ⟨by simp, by simp, Or.inr (Or.inr (Or.inl rfl))⟩
        | some pp =>
          simp only
          cases ffp with
          | none =>
            exact Or.inr ⟨by simp, by simp, Or.inr (Or.inr (Or.inr (Or.inl rfl)))⟩
          | some qq =>
            simp only
            cases slsp with
            | none =>
              exact Or.inr
                ⟨by simp, by simp, Or.inr (Or.inr (Or.inr (Or.inr (Or.inl rfl))))⟩
            | some sl =>
              simp only
              cases slso with
              | false =>
                exact Or.inr
                  ⟨by simp, by simp, Or.inr (Or.inr (Or.inr (Or.inr (Or.inl rfl))))⟩
              | true =>
                simp only [Bool.true_eq_false, if_false]
                cases slse with
                | false =>
                  exact Or.inr
                    ⟨by simp, by simp, Or.inr (Or.inr (Or.inr (Or.inr (Or.inl rfl))))⟩
                | true =>
                  simp only [Bool.true_eq_false, if_false]
                  cases hr : extract_rtmp_stream_details ip with
                  | error e =>
                    exact Or.inr
                      ⟨by simp, by simp,
                        Or.inr (Or.inr (Or.inr (Or.inr (Or.inr rfl))))⟩
                  | ok s =>
                    cases ffsp with
                    | none =>
                      exact Or.inr
                        ⟨by simp, by simp,
                          Or.inr (Or.inr (Or.inr (Or.inr (Or.inl rfl))))⟩
                    | some ff =>
                      simp only
                      cases ffsi with
                      | false =>
                        exact Or.inr
                          ⟨by simp, by simp,
                            Or.inr (Or.inr (Or.inr (Or.inr (Or.inl rfl))))⟩
                      | true =>
                        simp only [Bool.true_eq_false, if_false]
                        cases ffso with
                        | false =>
                          exact Or.inr
                            ⟨by simp, by simp,
                              Or.inr (Or.inr (Or.inr (Or.inr (Or.inl rfl))))⟩
                        | true =>
                          simp only [Bool.true_eq_false, if_false]
                          cases ffse with
                          | false =>
                            exact Or.inr
                              ⟨by simp, by simp,
                                Or.inr (Or.inr (Or.inr (Or.inr (Or.inl rfl))))⟩
                          | true =>
                            exact Or.inl
                              ⟨Or.inr rfl, "Stream iniciado para canal ", rfl⟩

lemma ytbotStop_body (reg : RegMap Nat) (cid : Int) (name : String)
    (world : Nat → KillBehavior) :
    ∃ pre, (ytbotStop reg cid name world).body = pre ++ name := by
  cases hl : reg.lookup cid with
  | none =>
    simp only [ytbotStop, hl]
    exact ⟨"Nenhum processo do ytbot em execução para o canal ", rfl⟩
  | some pid =>
    cases hk : (killAndWaitWithTimeout (world pid)).1 with
    | ok u =>
      simp only [ytbotStop, hl, hk]
      exact ⟨"ytbot interrompido com sucesso para o canal ", rfl⟩
    | error e =>
      simp only [ytbotStop, hl, hk]
      exact ⟨"Erro ao interromper o ytbot para o canal ", rfl⟩

lemma livestreamStop_body (reg : RegMap (Nat × Nat)) (cid : Int) (name : String)
    (world : Nat → KillBehavior) :
    ∃ pre, (livestreamStop reg cid name world).body = pre ++ name := by
  cases hl : reg.lookup cid with
  | none =>
    simp only [livestreamStop, hl]
    exact ⟨"Nenhum stream está em execução para o canal ", rfl⟩
  | some pr =>
    obtain ⟨sl, ff⟩ := pr
    cases hsl : (killAndWaitWithTimeout (world sl)).1 with
    | ok u =>
      cases hff : (killAndWaitWithTimeout (world ff)).1 with
      | ok v =>
        simp only [livestreamStop, hl, hsl, hff]
        exact ⟨"Stream Encerrado para o canal ", rfl⟩
      | error e =>
        simp only [livestreamStop, hl, hsl, hff]
        exact ⟨"Erro ao parar um dos processos do streaming do canal ", rfl⟩
    | error e =>
      cases hff : (killAndWaitWithTimeout (world ff)).1 with
      | ok v =>
        simp only [livestreamStop, hl, hsl, hff]
        exact ⟨"Erro ao parar um dos processos do streaming do canal ", rfl⟩
      | error e2 =>
        simp only [livestreamStop, hl, hsl, hff]
        exact ⟨"Erro ao parar streaming do canal ", rfl⟩

/-- Counterexample to C9: with a configured channel named Canal Um, a
livestream start failing because the streamlink executable is missing
returns a fixed body that does not contain the channel name. -/
theorem stream_failure_body_lacks_channel_name :
    (livestreamStart ⟨[]⟩ 1 ("Canal Um")
        ⟨some ("https://example.com/live"), true, none, some ("/usr/bin/ffmpeg"),
          some 11, true, true, (":1935/x"), some 12, true, true, true⟩).res
      = StreamStartRes.slExeNotFound
    ∧ (livestreamStart ⟨[]⟩ 1 ("Canal Um")
        ⟨some ("https://example.com/live"), true, none, some ("/usr/bin/ffmpeg"),
          some 11, true, true, (":1935/x"), some 12, true, true, true⟩).body
      = "Executável do streamlink não encontrado"
    ∧ containsStr ("Canal Um")
        ((livestreamStart ⟨[]⟩ 1 ("Canal Um")
          ⟨some ("https://example.com/live"), true, none, some ("/usr/bin/ffmpeg"),
            some 11, true, true, (":1935/x"), some 12, true, true, true⟩).body)
      = false := by
  refine ⟨by rfl, by rfl, by decide⟩

/-- C9 amended: failure bodies name the channel on the bot kind except
for the missing-executable case, on every stop path of both kinds, on
the already-running rejection of the stream kind, and in the status
error bodies of both kinds; but the channel lookup failure and the
remaining stream start failures (missing or invalid url, missing
executables, spawn, pipe acquisition and target resolution) return
fixed bodies independent of the channel name; no body carries internal
error detail beyond these fixed texts. -/
theorem failure_bodies_characterized :
    (∀ (reg : RegMap Nat) (cid : Int) (name : String) (env : BotEnv),
      ((ytbotStart reg cid name env).res = BotStartRes.exeNotFound →
        (ytbotStart reg cid name env).body = "Executável do ytbot não encontrado")
      ∧ ((ytbotStart reg cid name env).res ≠ BotStartRes.exeNotFound →
        containsStr name ((ytbotStart reg cid name env).body) = true))
    ∧ (∀ (reg : RegMap Nat) (cid : Int) (name : String) (world : Nat → KillBehavior),
        containsStr name ((ytbotStop reg cid name world).body) = true)
    ∧ (∀ (reg : RegMap (Nat × Nat)) (cid : Int) (name : String) (env : StreamEnv),
      (((livestreamStart reg cid name env).res = StreamStartRes.alreadyRunning
          ∨ (livestreamStart reg cid name env).res = StreamStartRes.started) →
        containsStr name ((livestreamStart reg cid name env).body) = true)
      ∧ (((livestreamStart reg cid name env).res ≠ StreamStartRes.alreadyRunning
          ∧ (livestreamStart reg cid name env).res ≠ StreamStartRes.started) →
        ((livestreamStart reg cid name env).body = "URL não fornecida"
          ∨ (livestreamStart reg cid name env).body = "URL inválida"
          ∨ (livestreamStart reg cid name env).body
              = "Executável do streamlink não encontrado"
          ∨ (livestreamStart reg cid name env).body
              = "Executável do ffmpeg não encontrado"
          ∨ (livestreamStart reg cid name env).body = "Erro ao iniciar o streaming"
          ∨ (livestreamStart reg cid name env).body = "Erro ao extrair detalhes RTMP")))
    ∧ (∀ (reg : RegMap (Nat × Nat)) (cid : Int) (name : String)
        (world : Nat → KillBehavior),
        containsStr name ((livestreamStop reg cid name world).body) = true)
    ∧ (∀ name : String, containsStr name (ytbotStatusErrorBody name) = true
        ∧ containsStr name (livestreamStatusErrorBody name) = true)
    ∧ channelLookupErrorBody = "Erro ao acessar o canal" := by
  refine ⟨?_, ?_, ?_, ?_, ?_, rfl⟩
  · intro reg cid name env
    rcases ytbotStart_body reg cid name env with ⟨hres, hbody⟩ | ⟨hne, pre, hbody⟩
    · exact ⟨fun _ => hbody, fun hne => absurd hres hne⟩
    · refine ⟨fun h => absurd h hne, fun _ => ?_⟩
      rw [hbody]
      exact containsStr_append_self pre name
  · intro reg cid name world
    obtain ⟨pre, hbody⟩ := ytbotStop_body reg cid name world
    rw [hbody]
    exact containsStr_append_self pre name
  · intro reg cid name env
    rcases livestreamStart_body reg cid name env with
      ⟨hres, pre, hbody⟩ | ⟨hne1, hne2, hbody⟩
    · refine ⟨fun _ => ?_, fun hne => ?_⟩
      · rw [hbody]
        exact containsStr_append_self pre name
      · rcases hres with h | h
        · exact absurd h hne.1
        · exact absurd h hne.2
    · exact ⟨fun h => by rcases h with h | h; exact absurd h hne1; exact absurd h hne2,
        fun _ => hbody⟩
  · intro reg cid name world
    obtain ⟨pre, hbody⟩ := livestreamStop_body reg cid name world
    rw [hbody]
    exact containsStr_append_self pre name
  · intro name
    exact ⟨containsStr_append_self _ name, containsStr_append_self _ name⟩

/-- Witness for the amended C9: a concrete already-running rejection on
the bot kind and a concrete stop body, both containing the configured
channel name. -/
theorem failure_bodies_characterized_witness :
    containsStr ("Canal Um") ((ytbotStart ⟨[(1, 5)]⟩ 1 ("Canal Um") sampleBotEnv).body)
        = true
    ∧ containsStr ("Canal Um")
        ((ytbotStop ⟨[(1, 5)]⟩ 1 ("Canal Um") (fun _ => KillBehavior.exitsAfter 0)).body)
        = true :=
  ⟨(failure_bodies_characterized.1 ⟨[(1, 5)]⟩ 1 ("Canal Um") sampleBotEnv).2 (by decide),
   failure_bodies_characterized.2.1 ⟨[(1, 5)]⟩ 1 ("Canal Um")
     (fun _ => KillBehavior.exitsAfter 0)⟩
